import Mathlib

/-!
Shallow embedding of the FairDataUse applicant-intake backend:
the three HTTP route handlers in `src/server/routes/social-qualify-form.ts`
(`handleSocialQualifyForm`, `handleCheckUserExists`, Reddit verifier
`verifyRedditAccount`) and `handleContractorRequest`
(src/unnamed/part_008, the pg version imported by `src/server/index.ts`),
together with the two tables from `src/tests/database-setup.sql` and the
global error middleware of `src/server/index.ts`.

External effects are modelled as explicit oracles:
- the Reddit network calls as a `RedditNet` record of fetch outcomes;
- PostgreSQL query failures as a `DbOracle` of optional error messages
  (one per query the handler issues, in order);
- the database itself as in-memory lists of rows with SERIAL counters.

JavaScript truthiness of environment variables and body fields
(`!clientId`, `!email`) is modelled by `truthy`: an absent value and the
empty string are both falsy. Timestamps (`created_at`, `updated_at`) are
assigned by the database and play no role in the claims, so rows omit
them. The connection-pool caching in `getDatabase` does not change any
response and is likewise omitted; what is kept is its observable check:
a falsy database URL throws "<env var> environment variable is not set"
BEFORE the handler enters its try/catch block, so that error reaches the
server-level error middleware instead of the handler's own catch.
-/

deriving instance DecidableEq for Except

/-- JS truthiness for an optional string env var or body field:
`undefined` and `""` are falsy, every other string is truthy. -/
def truthy : Option String → Bool
  | none => false
  | some s => s != ""

/-- `Response.ok` of the fetch API: status in the range 200-299. -/
def statusOk (s : Nat) : Bool :=
  decide (200 ≤ s) && decide (s < 300)

/-- A decoded JSON request body, restricted to the string fields the three
routes ever read. An absent key is `none`. -/
structure JsonObj where
  email : Option String
  phone : Option String
  redditUsername : Option String
  twitterUsername : Option String
  youtubeUsername : Option String
  facebookUsername : Option String
  companySlug : Option String
  companyName : Option String
deriving DecidableEq

/-- How `req.body` arrives at a handler: pre-parsed object, raw byte
buffer, or JSON-encoded string. For the buffer and string forms the
payload is the result of `JSON.parse` on the bytes: `some j` when the
bytes decode to the object `j`, `none` when `JSON.parse` throws. -/
inductive RawBody where
  | obj (j : JsonObj)
  | buf (parsed : Option JsonObj)
  | strBody (parsed : Option JsonObj)
deriving DecidableEq

/-- The buffer/string decode step that `handleSocialQualifyForm` and
`handleCheckUserExists` perform before validation (`Buffer.isBuffer` /
`typeof req.body === "string"` branches). `none` = `JSON.parse` threw. -/
def decodeBody : RawBody → Option JsonObj
  | .obj j => some j
  | .buf p => p
  | .strBody p => p

/-- Modelled from the spec: the shared Zod schemas file
(`shared/schemas.ts`) is not under src/; §4.1 requires "valid email
syntax" for the email field. The claims never depend on the exact
predicate, only on a payload having passed it. -/
def isValidEmail (s : String) : Bool :=
  s.data.contains '@' && decide (3 ≤ s.length)

/-- Validation error text observed in `src/tests/social-qualify-form.test.ts`. -/
def invalidEmailMsg : String := "Invalid email address"

/-- Validation error text observed in `src/tests/social-qualify-form.test.ts`. -/
def shortPhoneMsg : String := "Phone number must be at least 10 digits"

/-- Validation error text observed in `src/tests/social-qualify-form.test.ts`. -/
def redditRequiredMsg : String := "Reddit username is required"

/-- Modelled from the spec: §4.1 contractor rules, non-empty companySlug. -/
def slugRequiredMsg : String := "Company slug is required"

/-- Modelled from the spec: §4.1 contractor rules, non-empty companyName. -/
def companyNameRequiredMsg : String := "Company name is required"

/-- Modelled from the spec: Zod default issue text for an absent required
field (the schemas file is not under src/). -/
def requiredFieldsMsg : String := "Required"

/-- Modelled from the spec: Zod issue text when `ContractorRequestSchema`
is applied to a Buffer body (its required string fields are all absent,
so the field complaints are joined with ", " per §4.1). The exact text is
not load-bearing; no claim depends on it. -/
def contractorBufferValidationMsg : String := "Required, Required, Required"

/-- Modelled from the spec: Zod issue text when `ContractorRequestSchema`
is applied to a plain string body. The exact text is not load-bearing. -/
def contractorStringValidationMsg : String := "Expected object, received string"

/-- A validated applicant-intake payload (output of the Zod
`SocialQualifyFormSchema`). -/
structure QualifyData where
  email : String
  phone : String
  redditUsername : String
  twitterUsername : Option String
  youtubeUsername : Option String
  facebookUsername : Option String
deriving DecidableEq

/-- A validated contractor-request payload (output of the Zod
`ContractorRequestSchema`). -/
structure ContractorData where
  email : String
  companySlug : String
  companyName : String
deriving DecidableEq

/-- Modelled from the spec: `SocialQualifyFormSchema.parse` (§4.1).
Requires email with valid syntax, phone of at least 10 characters,
non-empty redditUsername; optional socials pass through; on failure the
violated field messages are joined with ", ". -/
def validateQualify (j : JsonObj) : Except String QualifyData :=
  let errs :=
    (match j.email with
      | some e => if isValidEmail e then [] else [invalidEmailMsg]
      | none => [invalidEmailMsg]) ++
    (match j.phone with
      | some p => if 10 ≤ p.length then [] else [shortPhoneMsg]
      | none => [shortPhoneMsg]) ++
    (match j.redditUsername with
      | some r => if 1 ≤ r.length then [] else [redditRequiredMsg]
      | none => [redditRequiredMsg])
  if errs.isEmpty then
    .ok ⟨j.email.getD "", j.phone.getD "", j.redditUsername.getD "",
         j.twitterUsername, j.youtubeUsername, j.facebookUsername⟩
  else
    .error (String.intercalate ", " errs)

/-- Modelled from the spec: `ContractorRequestSchema.parse` (§4.1) as
invoked by `handleContractorRequest` on the RAW `req.body` — unlike the
other two routes there is no buffer/string decode step first
(src/unnamed/part_008 line 61), so a Buffer or string body reaches Zod
directly and fails with a validation-style error. -/
def validateContractor : RawBody → Except String ContractorData
  | .obj j =>
    match j.email, j.companySlug, j.companyName with
    | some e, some s, some n =>
      let errs :=
        (if isValidEmail e then [] else [invalidEmailMsg]) ++
        (if 1 ≤ s.length then [] else [slugRequiredMsg]) ++
        (if 1 ≤ n.length then [] else [companyNameRequiredMsg])
      if errs.isEmpty then .ok ⟨e, s, n⟩
      else .error (String.intercalate ", " errs)
    | _, _, _ => .error requiredFieldsMsg
  | .buf _ => .error contractorBufferValidationMsg
  | .strBody _ => .error contractorStringValidationMsg

/-- A row of the `users` table (src/tests/database-setup.sql). -/
structure UserRow where
  id : Nat
  email : String
  phone : String
  redditUsername : String
  twitterUsername : Option String
  youtubeUsername : Option String
  facebookUsername : Option String
  redditVerified : Bool
deriving DecidableEq

/-- The `status` CHECK constraint of the `contractors` table. -/
inductive ContractorStatus where
  | pending
  | accepted
  | rejected
deriving DecidableEq

/-- A row of the `contractors` table (src/tests/database-setup.sql). -/
structure ContractorRow where
  id : Nat
  userId : Nat
  email : String
  companySlug : String
  companyName : String
  status : ContractorStatus
  joinedSlack : Bool
  canStartJob : Bool
deriving DecidableEq

/-- The database: both tables in insertion order plus the SERIAL
counters for the next primary keys. -/
structure Db where
  users : List UserRow
  contractors : List ContractorRow
  nextUserId : Nat
  nextContractorId : Nat
deriving DecidableEq

/-- `SELECT id FROM users WHERE email = $1 AND phone = $2` has a row. -/
def existsUser (e p : String) (db : Db) : Bool :=
  db.users.any fun u => u.email == e && u.phone == p

/-- `SELECT id, email FROM users WHERE email = $1`, taking `rows[0]`. -/
def findUserByEmail (e : String) (db : Db) : Option UserRow :=
  db.users.find? fun u => u.email == e

/-- `SELECT id FROM contractors WHERE user_id = $1 AND company_slug = $2`
has a row. Note there is no condition on `status`. -/
def existsContractor (uid : Nat) (slug : String) (db : Db) : Bool :=
  db.contractors.any fun c => c.userId == uid && c.companySlug == slug

/-- The `validatedData.twitterUsername || null` coercion of the insert:
a falsy value (absent or empty string) is stored as NULL. -/
def orNull : Option String → Option String
  | none => none
  | some s => if s == "" then none else some s

/-- `INSERT INTO users ... RETURNING id, created_at, updated_at` with
`reddit_verified = $7`. -/
def insertUser (d : QualifyData) (verified : Bool) (db : Db) : Db :=
  { users := db.users ++
      [⟨db.nextUserId, d.email, d.phone, d.redditUsername,
        orNull d.twitterUsername, orNull d.youtubeUsername,
        orNull d.facebookUsername, verified⟩],
    contractors := db.contractors,
    nextUserId := db.nextUserId + 1,
    nextContractorId := db.nextContractorId }

/-- `INSERT INTO contractors ...` with the literal values
`status = "pending"`, `joined_slack = true`, `can_start_job = false`. -/
def insertContractor (uid : Nat) (d : ContractorData) (db : Db) : Db :=
  { users := db.users,
    contractors := db.contractors ++
      [⟨db.nextContractorId, uid, d.email, d.companySlug, d.companyName,
        .pending, true, false⟩],
    nextUserId := db.nextUserId,
    nextContractorId := db.nextContractorId + 1 }

/-- Outcome of one `fetch` call: a thrown network error, or a response
with its HTTP status and whether a subsequent `.json()` parse of the
body succeeds. -/
inductive FetchOutcome where
  | exn (msg : String)
  | resp (status : Nat) (parseOk : Bool)
deriving DecidableEq

/-- The two sequential Reddit round-trips of one verification attempt:
the OAuth client-credentials POST and the `/user/<name>/about` GET. -/
structure RedditNet where
  auth : FetchOutcome
  user : FetchOutcome
deriving DecidableEq

/-- Result of `verifyRedditAccount`: a boolean, or the thrown
`RedditCredentialsError` carrying the missing secret names. -/
inductive VerifyResult where
  | ok (verified : Bool)
  | credsError (missing : List String)
deriving DecidableEq

/-- The `missing` list built when credentials are falsy: client id is
pushed first, then client secret. -/
def missingCreds (clientId clientSecret : Option String) : List String :=
  (if truthy clientId then [] else ["REDDIT_CLIENT_ID"]) ++
  (if truthy clientSecret then [] else ["REDDIT_CLIENT_SECRET"])

/-- `verifyRedditAccount` (src/server/routes/social-qualify-form.ts
lines 80-168). Credentials are checked before any network call; a falsy
credential throws `RedditCredentialsError` (re-thrown past the catch-all).
Then: non-ok OAuth status → false; `.json()` parse throw → caught →
false; otherwise the user lookup decides the boolean by `Response.ok`;
any thrown network error at either step is caught and yields false. -/
def verifyRedditAccount (clientId clientSecret : Option String)
    (net : RedditNet) (username : String) : VerifyResult :=
  if truthy clientId && truthy clientSecret then
    match net.auth with
    | .exn _ => .ok false
    | .resp s parseOk =>
      if statusOk s then
        if parseOk then
          match net.user with
          | .exn _ => .ok false
          | .resp s2 _ => .ok (statusOk s2)
        else .ok false
      else .ok false
  else
    .credsError (missingCreds clientId clientSecret)

/-- The process environment relevant to the three handlers. -/
structure Env where
  nodeEnvTest : Bool
  databaseUrl : Option String
  testDatabaseUrl : Option String
  redditClientId : Option String
  redditClientSecret : Option String
deriving DecidableEq

/-- `NODE_ENV === "test" ? TEST_DATABASE_URL : DATABASE_URL`. -/
def activeDbUrl (env : Env) : Option String :=
  if env.nodeEnvTest then env.testDatabaseUrl else env.databaseUrl

/-- Name of the database env var `getDatabase` complains about. -/
def dbEnvVarName (env : Env) : String :=
  if env.nodeEnvTest then "TEST_DATABASE_URL" else "DATABASE_URL"

/-- The message of the error `getDatabase` throws on a falsy URL. -/
def dbUrlUnsetMsg (env : Env) : String :=
  dbEnvVarName env ++ " environment variable is not set"

/-- Failure oracle for the PostgreSQL queries a handler issues, in
order: first SELECT, second SELECT (contractor duplicate check), INSERT.
`some m` means that query rejects with error message `m` (connection
refused, malformed connection string resolved at connect time, SQL
error, ...); `none` means it succeeds. -/
structure DbOracle where
  q1Fail : Option String
  q2Fail : Option String
  insertFail : Option String
deriving DecidableEq

/-- The hardcoded matched-company offer. -/
structure MatchedCompany where
  name : String
  slug : String
  payRate : String
  bonus : String
deriving DecidableEq

/-- The JSON response bodies the handlers produce, with the HTTP status;
fields absent from a given response are `none`. -/
structure Resp where
  status : Nat
  success : Bool
  message : Option String
  error : Option String
  userExists : Option Bool
  data : Option MatchedCompany
deriving DecidableEq

/-- `res.status(s).json({success:false, message})`. -/
def errResp (status : Nat) (msg : String) : Resp :=
  ⟨status, false, some msg, none, none, none⟩

/-- `res.json({success:true, userExists})` (status 200). -/
def checkResp (exists_ : Bool) : Resp :=
  ⟨200, true, none, none, some exists_, none⟩

/-- The `error` diagnostic field for missing Reddit credentials
(`RedditCredentialsError.message`). -/
def credsErrorDetail (missing : List String) : String :=
  "Missing Reddit API credentials: " ++ String.intercalate ", " missing

/-- The 400 response for missing Reddit credentials. -/
def credsMissingResp (missing : List String) : Resp :=
  ⟨400, false, some "Reddit API credentials are not configured properly",
    some (credsErrorDetail missing), none, none⟩

/-- The fixed offer returned to every successful applicant. -/
def matchedCompany : MatchedCompany :=
  ⟨"Silicon Valley Consulting", "silicon-valley-consulting",
    "$2.00 per hour", "$500"⟩

/-- The intake success response (status 200 via `res.json`). -/
def successQualifyResp : Resp :=
  ⟨200, true, some "Application processed successfully", none, none,
    some matchedCompany⟩

/-- The duplicate-applicant rejection text. -/
def duplicateUserMsg : String :=
  "A user with this email and phone number combination already exists."

/-- The rejection text for an unverified Reddit username. -/
def redditNotExistMsg (u : String) : String :=
  "Reddit user \x27" ++ u ++
    "\x27 does not exist. Please check the username and try again."

/-- The decode-failure text of the two decoding routes. -/
def invalidJsonMsg : String := "Invalid JSON in request body"

/-- The missing-field text of `handleCheckUserExists`. -/
def emailPhoneRequiredMsg : String := "Email and phone are required"

/-- The contractor-request 404 text. -/
def userNotFoundMsg : String :=
  "User not found. Please complete the qualification form first."

/-- The contractor-request duplicate rejection text. -/
def contractorDupMsg : String :=
  "You have already requested to join this company. Please check your email for updates."

/-- The contractor-request success text. -/
def contractorSuccessMsg : String :=
  "We\x27ve just pinged them. You\x27ll be sent an email and text invite within 72 hours."

/-- The contractor-request success response (status 200 via `res.json`). -/
def successContractorResp : Resp :=
  ⟨200, true, some contractorSuccessMsg, none, none, none⟩

/-- A handler's catch-block 500 message: `Internal server error: <msg>`. -/
def internalMsg (m : String) : String := "Internal server error: " ++ m

/-- The global error middleware's 500 message: `Server error: <msg>`. -/
def serverErrorMsg (m : String) : String := "Server error: " ++ m

/-- What one handler invocation does: respond with a body and leave the
database in a state, or let an exception escape the handler (thrown
before its try block) to the server-level middleware. -/
inductive Outcome where
  | respond (r : Resp) (db : Db)
  | escaped (msg : String) (db : Db)
deriving DecidableEq

/-- The global error middleware of `src/server/index.ts` (lines 55-72):
an error escaping a handler is answered with status 500 and message
`Server error: <msg>` (the stack-trace field stays absent outside
development mode). -/
def finalResponse : Outcome → Resp × Db
  | .respond r db => (r, db)
  | .escaped m db => (errResp 500 (serverErrorMsg m), db)

/-- `handleCheckUserExists` (src/server/routes/social-qualify-form.ts
lines 171-247). `getDatabase()` runs before the try block; inside it:
buffer/string decode, truthiness check of `email`/`phone`, the SELECT,
then `{success:true, userExists}`. -/
def handleCheckUserExists (env : Env) (q : DbOracle) (body : RawBody)
    (db : Db) : Outcome :=
  if truthy (activeDbUrl env) then
    match decodeBody body with
    | none => .respond (errResp 400 invalidJsonMsg) db
    | some j =>
      if truthy j.email && truthy j.phone then
        match q.q1Fail with
        | some m => .respond (errResp 500 (internalMsg m)) db
        | none =>
          .respond (checkResp (existsUser (j.email.getD "") (j.phone.getD "") db)) db
      else
        .respond (errResp 400 emailPhoneRequiredMsg) db
  else
    .escaped (dbUrlUnsetMsg env) db

/-- `handleSocialQualifyForm` (src/server/routes/social-qualify-form.ts
lines 249-446). `getDatabase()` runs before the try block; inside it:
buffer/string decode, Zod validation, duplicate SELECT, Reddit
verification (a `RedditCredentialsError` is mapped to its dedicated 400,
any other verifier exception cannot occur by construction of
`verifyRedditAccount`), the INSERT with `reddit_verified = true`, and
the fixed matched-company success payload. Query failures are caught by
the handler and yield `Internal server error: <msg>`. -/
def handleSocialQualifyForm (env : Env) (net : RedditNet) (q : DbOracle)
    (body : RawBody) (db : Db) : Outcome :=
  if truthy (activeDbUrl env) then
    match decodeBody body with
    | none => .respond (errResp 400 invalidJsonMsg) db
    | some j =>
      match validateQualify j with
      | .error m => .respond (errResp 400 m) db
      | .ok d =>
        match q.q1Fail with
        | some m => .respond (errResp 500 (internalMsg m)) db
        | none =>
          if existsUser d.email d.phone db then
            .respond (errResp 400 duplicateUserMsg) db
          else
            match verifyRedditAccount env.redditClientId env.redditClientSecret
                net d.redditUsername with
            | .credsError missing => .respond (credsMissingResp missing) db
            | .ok false =>
              .respond (errResp 400 (redditNotExistMsg d.redditUsername)) db
            | .ok true =>
              match q.insertFail with
              | some m => .respond (errResp 500 (internalMsg m)) db
              | none => .respond successQualifyResp (insertUser d true db)
  else
    .escaped (dbUrlUnsetMsg env) db

/-- `handleContractorRequest` (src/unnamed/part_008 lines 50-167).
`getDatabase()` runs before the try block; inside it: Zod validation of
the RAW body (no buffer/string decode step), user lookup by email
(404 when absent), duplicate SELECT on (user_id, company_slug) with no
status condition, then the INSERT with status pending, joined_slack
true, can_start_job false. -/
def handleContractorRequest (env : Env) (q : DbOracle) (body : RawBody)
    (db : Db) : Outcome :=
  if truthy (activeDbUrl env) then
    match validateContractor body with
    | .error m => .respond (errResp 400 m) db
    | .ok d =>
      match q.q1Fail with
      | some m => .respond (errResp 500 (internalMsg m)) db
      | none =>
        match findUserByEmail d.email db with
        | none => .respond (errResp 404 userNotFoundMsg) db
        | some u =>
          match q.q2Fail with
          | some m => .respond (errResp 500 (internalMsg m)) db
          | none =>
            if existsContractor u.id d.companySlug db then
              .respond (errResp 400 contractorDupMsg) db
            else
              match q.insertFail with
              | some m => .respond (errResp 500 (internalMsg m)) db
              | none =>
                .respond successContractorResp (insertContractor u.id d db)
  else
    .escaped (dbUrlUnsetMsg env) db

/-! Concrete fixtures used by witnesses and counterexamples. -/

/-- A fully configured environment: production mode, database URL set,
both Reddit credentials set. -/
def envA : Env :=
  ⟨false, some "postgres://db", none, some "cid", some "csecret"⟩

/-- Production environment with no database URL configured. -/
def envNoDb : Env := ⟨false, none, none, some "cid", some "csecret"⟩

/-- Environment with the database configured but both Reddit
credentials unset. -/
def envNoCreds : Env := ⟨false, some "postgres://db", none, none, none⟩

/-- Both Reddit round-trips succeed (status 200, body parses). -/
def netOk : RedditNet := ⟨.resp 200 true, .resp 200 true⟩

/-- OAuth succeeds but the user-about lookup returns 404. -/
def netUser404 : RedditNet := ⟨.resp 200 true, .resp 404 true⟩

/-- All queries succeed. -/
def qOk : DbOracle := ⟨none, none, none⟩

/-- A valid intake body. -/
def jA : JsonObj :=
  ⟨some "a@example.com", some "1234567890", some "testuser",
    none, none, none, none, none⟩

/-- The payload `jA` validates to. -/
def dA : QualifyData :=
  ⟨"a@example.com", "1234567890", "testuser", none, none, none⟩

/-- A second valid intake body with a different email and phone. -/
def jB : JsonObj :=
  ⟨some "b@example.com", some "0987654321", some "testuser",
    none, none, none, none, none⟩

/-- The payload `jB` validates to. -/
def dB : QualifyData :=
  ⟨"b@example.com", "0987654321", "testuser", none, none, none⟩

/-- A check-user-exists body whose email key is present but empty. -/
def jEmptyEmail : JsonObj :=
  ⟨some "", some "1234567890", none, none, none, none, none, none⟩

/-- A valid contractor-request body. -/
def jC : JsonObj :=
  ⟨some "a@example.com", none, none, none, none, none,
    some "silicon-valley-consulting", some "Silicon Valley Consulting"⟩

/-- The payload `jC` validates to. -/
def dC : ContractorData :=
  ⟨"a@example.com", "silicon-valley-consulting", "Silicon Valley Consulting"⟩

/-- The empty database. -/
def db0 : Db := ⟨[], [], 1, 1⟩

/-- The applicant row created from `dA`. -/
def userA : UserRow :=
  ⟨1, "a@example.com", "1234567890", "testuser", none, none, none, true⟩

/-- A database holding exactly the applicant `userA`. -/
def dbU : Db := ⟨[userA], [], 2, 1⟩

/-- A contractors row for `userA` whose request was already REJECTED. -/
def rowRejected : ContractorRow :=
  ⟨1, 1, "a@example.com", "silicon-valley-consulting",
    "Silicon Valley Consulting", .rejected, true, false⟩

/-- A database holding `userA` and the rejected request `rowRejected`. -/
def dbUR : Db := ⟨[userA], [rowRejected], 2, 2⟩

/-- Inserting an applicant makes the (email, phone) duplicate check fire
on any later identical submission. -/
lemma existsUser_insert_self (d : QualifyData) (v : Bool) (db : Db) :
    existsUser d.email d.phone (insertUser d v db) = true := by
  simp [existsUser, insertUser]

/-- A contractors row on (userId, companySlug) makes the duplicate
check fire, whatever its other columns hold. -/
lemma existsContractor_of_mem (uid : Nat) (slug : String) (db : Db)
    (r : ContractorRow) (hr : r ∈ db.contractors) (hid : r.userId = uid)
    (hslug : r.companySlug = slug) :
    existsContractor uid slug db = true := by
  simp only [existsContractor, List.any_eq_true]
  exact ⟨r, hr, by simp [hid, hslug]⟩

/-- C1: for every valid applicant payload whose Reddit username verifies
and whose (email, phone) pair is not already stored, the intake endpoint
inserts exactly one new applicant row with redditVerified=true and
responds 200 with success:true, message "Application processed
successfully" and the fixed matchedCompany payload, regardless of any
other applicant attribute. -/
theorem C1_intake_success (env : Env) (net : RedditNet) (q : DbOracle)
    (body : RawBody) (j : JsonObj) (d : QualifyData) (db : Db)
    (hurl : truthy (activeDbUrl env) = true)
    (hdec : decodeBody body = some j)
    (hval : validateQualify j = .ok d)
    (hq1 : q.q1Fail = none)
    (hins : q.insertFail = none)
    (hdup : existsUser d.email d.phone db = false)
    (hver : verifyRedditAccount env.redditClientId env.redditClientSecret
      net d.redditUsername = .ok true) :
    handleSocialQualifyForm env net q body db =
      .respond successQualifyResp (insertUser d true db) ∧
    successQualifyResp =
      ⟨200, true, some "Application processed successfully", none, none,
        some ⟨"Silicon Valley Consulting", "silicon-valley-consulting",
          "$2.00 per hour", "$500"⟩⟩ ∧
    (insertUser d true db).users = db.users ++
      [⟨db.nextUserId, d.email, d.phone, d.redditUsername,
        orNull d.twitterUsername, orNull d.youtubeUsername,
        orNull d.facebookUsername, true⟩] := by
  refine ⟨?_, rfl, rfl⟩
  simp [handleSocialQualifyForm, hurl, hdec, hval, hq1, hdup, hver, hins]

/-- C1 witness: a concrete successful submission against the empty
database. -/
theorem C1_intake_success_witness :
    handleSocialQualifyForm envA netOk qOk (RawBody.obj jA) db0 =
      .respond successQualifyResp (insertUser dA true db0) :=
  (C1_intake_success envA netOk qOk (RawBody.obj jA) jA dA db0 (by decide)
    rfl (by decide) rfl rfl (by decide) (by decide)).1

/-- C2: with either Reddit credential unset (falsy), a validated
non-duplicate submission is answered 400 with the fixed message and an
error field naming exactly the missing secret(s); the database is left
unchanged, and the outcome does not depend on the network at all (the
check precedes any network call). -/
theorem C2_creds_missing (env : Env) (net : RedditNet) (q : DbOracle)
    (body : RawBody) (j : JsonObj) (d : QualifyData) (db : Db)
    (hurl : truthy (activeDbUrl env) = true)
    (hdec : decodeBody body = some j)
    (hval : validateQualify j = .ok d)
    (hq1 : q.q1Fail = none)
    (hdup : existsUser d.email d.phone db = false)
    (hmiss : truthy env.redditClientId = false ∨
      truthy env.redditClientSecret = false) :
    handleSocialQualifyForm env net q body db =
      .respond
        (credsMissingResp (missingCreds env.redditClientId env.redditClientSecret))
        db ∧
    credsMissingResp (missingCreds env.redditClientId env.redditClientSecret) =
      ⟨400, false, some "Reddit API credentials are not configured properly",
        some ("Missing Reddit API credentials: " ++ String.intercalate ", "
          (missingCreds env.redditClientId env.redditClientSecret)),
        none, none⟩ ∧
    ("REDDIT_CLIENT_ID" ∈ missingCreds env.redditClientId env.redditClientSecret
      ↔ truthy env.redditClientId = false) ∧
    ("REDDIT_CLIENT_SECRET" ∈ missingCreds env.redditClientId env.redditClientSecret
      ↔ truthy env.redditClientSecret = false) ∧
    (∀ net2 : RedditNet, handleSocialQualifyForm env net2 q body db =
      handleSocialQualifyForm env net q body db) := by
  have hver : ∀ n : RedditNet,
      verifyRedditAccount env.redditClientId env.redditClientSecret n
        d.redditUsername =
      .credsError (missingCreds env.redditClientId env.redditClientSecret) := by
    intro n
    rcases hmiss with h | h <;> simp [verifyRedditAccount, h]
  refine ⟨?_, rfl, ?_, ?_, ?_⟩
  · simp [handleSocialQualifyForm, hurl, hdec, hval, hq1, hdup, hver net]
  · cases h1 : truthy env.redditClientId <;>
      cases h2 : truthy env.redditClientSecret <;>
      simp [missingCreds, h1, h2]
  · cases h1 : truthy env.redditClientId <;>
      cases h2 : truthy env.redditClientSecret <;>
      simp [missingCreds, h1, h2]
  · intro net2
    simp [handleSocialQualifyForm, hurl, hdec, hval, hq1, hdup, hver net,
      hver net2]

/-- C2 witness: both credentials unset, both names listed. -/
theorem C2_creds_missing_witness :
    handleSocialQualifyForm envNoCreds netOk qOk (RawBody.obj jA) db0 =
      .respond
        (credsMissingResp
          (missingCreds envNoCreds.redditClientId envNoCreds.redditClientSecret))
        db0 ∧
    credsErrorDetail
        (missingCreds envNoCreds.redditClientId envNoCreds.redditClientSecret) =
      "Missing Reddit API credentials: REDDIT_CLIENT_ID, REDDIT_CLIENT_SECRET" :=
  ⟨(C2_creds_missing envNoCreds netOk qOk (RawBody.obj jA) jA dA db0
      (by decide) rfl (by decide) rfl (by decide) (Or.inl (by decide))).1,
    by decide⟩

/-- C3: with both credentials present, the Reddit verifier always
returns a boolean (never the credentials error, never an uncaught
exception): false on a thrown network error at either step, a non-ok
OAuth status, a token-body parse failure, or a non-2xx user lookup; and
true exactly when the OAuth step succeeded and the user-lookup response
is 2xx. -/
theorem C3_verifier_total (cid cs : Option String) (net : RedditNet)
    (u : String)
    (hid : truthy cid = true) (hsec : truthy cs = true) :
    (verifyRedditAccount cid cs net u = .ok true ∨
      verifyRedditAccount cid cs net u = .ok false) ∧
    (verifyRedditAccount cid cs net u = .ok true ↔
      ((∃ s, net.auth = .resp s true ∧ statusOk s = true) ∧
       (∃ t b, net.user = .resp t b ∧ statusOk t = true))) := by
  obtain ⟨a, w⟩ := net
  cases a with
  | exn m => simp [verifyRedditAccount, hid, hsec]
  | resp s pOk =>
    cases w with
    | exn m2 =>
      cases hs : statusOk s <;> cases pOk <;>
        simp [verifyRedditAccount, hid, hsec, hs]
    | resp t b =>
      cases hs : statusOk s <;> cases pOk <;> cases ht : statusOk t <;>
        simp [verifyRedditAccount, hid, hsec, hs, ht]

/-- C3 witness: configured credentials, both round-trips succeeding. -/
theorem C3_verifier_total_witness :
    (verifyRedditAccount (some "cid") (some "csecret") netOk "testuser" =
        .ok true ∨
      verifyRedditAccount (some "cid") (some "csecret") netOk "testuser" =
        .ok false) ∧
    (verifyRedditAccount (some "cid") (some "csecret") netOk "testuser" =
        .ok true ↔
      ((∃ s, netOk.auth = .resp s true ∧ statusOk s = true) ∧
       (∃ t b, netOk.user = .resp t b ∧ statusOk t = true))) :=
  C3_verifier_total (some "cid") (some "csecret") netOk "testuser"
    (by decide) (by decide)

/-- C4: a validated, non-duplicate submission whose Reddit username does
not verify is answered 400 with exactly the message naming the submitted
username, and the database is unchanged. -/
theorem C4_reddit_not_found (env : Env) (net : RedditNet) (q : DbOracle)
    (body : RawBody) (j : JsonObj) (d : QualifyData) (db : Db)
    (hurl : truthy (activeDbUrl env) = true)
    (hdec : decodeBody body = some j)
    (hval : validateQualify j = .ok d)
    (hq1 : q.q1Fail = none)
    (hdup : existsUser d.email d.phone db = false)
    (hver : verifyRedditAccount env.redditClientId env.redditClientSecret
      net d.redditUsername = .ok false) :
    handleSocialQualifyForm env net q body db =
      .respond (errResp 400 (redditNotExistMsg d.redditUsername)) db ∧
    redditNotExistMsg d.redditUsername =
      "Reddit user \x27" ++ d.redditUsername ++
        "\x27 does not exist. Please check the username and try again." := by
  refine ⟨?_, rfl⟩
  simp [handleSocialQualifyForm, hurl, hdec, hval, hq1, hdup, hver]

/-- C4 witness: the user-about lookup returns 404. -/
theorem C4_reddit_not_found_witness :
    handleSocialQualifyForm envA netUser404 qOk (RawBody.obj jA) db0 =
      .respond (errResp 400 (redditNotExistMsg "testuser")) db0 :=
  (C4_reddit_not_found envA netUser404 qOk (RawBody.obj jA) jA dA db0
    (by decide) rfl (by decide) rfl (by decide) (by decide)).1

/-- C5: a validated submission whose (email, phone) pair is already
stored is answered 400 with the fixed duplicate message, the database is
unchanged, and the outcome is the same for every network behavior and
credential configuration (the duplicate check precedes verification);
consequently submitting the same payload twice sequentially succeeds the
first time and is rejected as duplicate the second, with no second row. -/
theorem C5_duplicate_rejection (env : Env) (net : RedditNet) (q : DbOracle)
    (body : RawBody) (j : JsonObj) (d : QualifyData)
    (hurl : truthy (activeDbUrl env) = true)
    (hdec : decodeBody body = some j)
    (hval : validateQualify j = .ok d)
    (hq1 : q.q1Fail = none)
    (hins : q.insertFail = none) :
    (∀ db : Db, existsUser d.email d.phone db = true →
      handleSocialQualifyForm env net q body db =
        .respond (errResp 400 duplicateUserMsg) db ∧
      (∀ (env2 : Env) (net2 : RedditNet) (q2 : DbOracle),
        truthy (activeDbUrl env2) = true → q2.q1Fail = none →
        handleSocialQualifyForm env2 net2 q2 body db =
          .respond (errResp 400 duplicateUserMsg) db)) ∧
    (∀ db : Db, existsUser d.email d.phone db = false →
      verifyRedditAccount env.redditClientId env.redditClientSecret net
        d.redditUsername = .ok true →
      handleSocialQualifyForm env net q body db =
        .respond successQualifyResp (insertUser d true db) ∧
      handleSocialQualifyForm env net q body (insertUser d true db) =
        .respond (errResp 400 duplicateUserMsg) (insertUser d true db)) := by
  constructor
  · intro db hdup
    constructor
    · simp [handleSocialQualifyForm, hurl, hdec, hval, hq1, hdup]
    · intro env2 net2 q2 hurl2 hq12
      simp [handleSocialQualifyForm, hurl2, hdec, hval, hq12, hdup]
  · intro db hdup hver
    constructor
    · simp [handleSocialQualifyForm, hurl, hdec, hval, hq1, hdup, hver, hins]
    · have hdup2 := existsUser_insert_self d true db
      simp [handleSocialQualifyForm, hurl, hdec, hval, hq1, hdup2]

/-- C5 witness: the same concrete payload twice against the empty
database. -/
theorem C5_duplicate_rejection_witness :
    handleSocialQualifyForm envA netOk qOk (RawBody.obj jA) db0 =
      .respond successQualifyResp (insertUser dA true db0) ∧
    handleSocialQualifyForm envA netOk qOk (RawBody.obj jA)
        (insertUser dA true db0) =
      .respond (errResp 400 duplicateUserMsg) (insertUser dA true db0) :=
  (C5_duplicate_rejection envA netOk qOk (RawBody.obj jA) jA dA (by decide)
    rfl (by decide) rfl rfl).2 db0 (by decide) (by decide)

/-- C6 counterexample: the claim predicts 200 with a userExists flag
whenever both `email` and `phone` keys are present in the decoded body,
but the handler tests JS truthiness, so a PRESENT-but-empty email is
answered 400 "Email and phone are required". -/
theorem C6_check_user_exists_counterexample :
    jEmptyEmail.email = some "" ∧
    jEmptyEmail.phone = some "1234567890" ∧
    handleCheckUserExists envA qOk (RawBody.obj jEmptyEmail) db0 =
      .respond (errResp 400 emailPhoneRequiredMsg) db0 ∧
    errResp 400 emailPhoneRequiredMsg ≠
      checkResp (existsUser "" "1234567890" db0) := by decide

/-- C6 (amended): check-user-exists answers 400 "Email and phone are
required" whenever either field of the decoded body is absent OR empty
(JS-falsy); otherwise it answers 200 {success:true, userExists} where
userExists holds iff some stored row matches BOTH fields exactly, and in
either case storage is untouched. -/
theorem C6_check_user_exists (env : Env) (q : DbOracle) (body : RawBody)
    (j : JsonObj) (db : Db)
    (hurl : truthy (activeDbUrl env) = true)
    (hdec : decodeBody body = some j)
    (hq1 : q.q1Fail = none) :
    (truthy j.email = false ∨ truthy j.phone = false →
      handleCheckUserExists env q body db =
        .respond (errResp 400 emailPhoneRequiredMsg) db) ∧
    (∀ e p : String, j.email = some e → j.phone = some p →
      truthy j.email = true → truthy j.phone = true →
      handleCheckUserExists env q body db =
        .respond (checkResp (existsUser e p db)) db ∧
      (existsUser e p db = true ↔
        ∃ u ∈ db.users, u.email = e ∧ u.phone = p)) := by
  constructor
  · intro hmiss
    rcases hmiss with h | h <;>
      simp [handleCheckUserExists, hurl, hdec, h]
  · intro e p he hp hte htp
    have hte2 : truthy (some e) = true := by rw [← he]; exact hte
    have htp2 : truthy (some p) = true := by rw [← hp]; exact htp
    constructor
    · simp [handleCheckUserExists, hurl, hdec, he, hp, hte2, htp2, hq1]
    · simp [existsUser, List.any_eq_true]

/-- C6 witness: a stored pair is reported as existing; storage untouched. -/
theorem C6_check_user_exists_witness :
    handleCheckUserExists envA qOk (RawBody.obj jA) dbU =
      .respond (checkResp (existsUser "a@example.com" "1234567890" dbU)) dbU ∧
    existsUser "a@example.com" "1234567890" dbU = true ∧
    existsUser "a@example.com" "0987654321" dbU = false ∧
    existsUser "b@example.com" "1234567890" dbU = false :=
  ⟨((C6_check_user_exists envA qOk (RawBody.obj jA) jA dbU (by decide) rfl
      rfl).2 "a@example.com" "1234567890" rfl rfl (by decide) (by decide)).1,
    by decide, by decide, by decide⟩

/-- C7: a validated contractor request for an unknown email is answered
404 with the fixed message and persists nothing; with a resolved
applicant that already has a contractors row for the companySlug it is
answered 400 with the fixed duplicate message and persists nothing;
otherwise exactly one contractors row is inserted with status pending,
joinedSlack true, canStartJob false, and the fixed success message is
returned with status 200. -/
theorem C7_contractor_request (env : Env) (q : DbOracle) (body : RawBody)
    (d : ContractorData) (db : Db)
    (hurl : truthy (activeDbUrl env) = true)
    (hval : validateContractor body = .ok d)
    (hq1 : q.q1Fail = none) (hq2 : q.q2Fail = none)
    (hins : q.insertFail = none) :
    (findUserByEmail d.email db = none →
      handleContractorRequest env q body db =
        .respond (errResp 404 userNotFoundMsg) db) ∧
    (∀ u : UserRow, findUserByEmail d.email db = some u →
      (existsContractor u.id d.companySlug db = true →
        handleContractorRequest env q body db =
          .respond (errResp 400 contractorDupMsg) db) ∧
      (existsContractor u.id d.companySlug db = false →
        handleContractorRequest env q body db =
          .respond successContractorResp (insertContractor u.id d db) ∧
        (insertContractor u.id d db).contractors = db.contractors ++
          [⟨db.nextContractorId, u.id, d.email, d.companySlug,
            d.companyName, ContractorStatus.pending, true, false⟩] ∧
        successContractorResp = ⟨200, true, some contractorSuccessMsg,
          none, none, none⟩)) := by
  constructor
  · intro hnone
    simp [handleContractorRequest, hurl, hval, hq1, hnone]
  · intro u hu
    constructor
    · intro hdup
      simp [handleContractorRequest, hurl, hval, hq1, hu, hq2, hdup]
    · intro hnodup
      refine ⟨?_, rfl, rfl⟩
      simp [handleContractorRequest, hurl, hval, hq1, hu, hq2, hnodup, hins]

/-- C7 witness: first request for a stored applicant succeeds and
persists the pending row. -/
theorem C7_contractor_request_witness :
    handleContractorRequest envA qOk (RawBody.obj jC) dbU =
      .respond successContractorResp (insertContractor 1 dC dbU) :=
  (((C7_contractor_request envA qOk (RawBody.obj jC) dC dbU (by decide)
      (by decide) rfl rfl rfl).2 userA (by decide)).2 (by decide)).1

/-- C8 counterexample: the contractor-request route does NOT decode a
buffer body before schema validation: the very bytes that succeed when
pre-parsed are rejected with a validation-style 400 when they arrive as
a buffer, so its behavior on a decodable buffer differs from its
behavior on the decoded object, and the decode-failure message of the
claim never appears on this route. -/
theorem C8_body_decoding_counterexample :
    handleContractorRequest envA qOk (RawBody.obj jC) dbU =
      .respond successContractorResp (insertContractor 1 dC dbU) ∧
    handleContractorRequest envA qOk (RawBody.buf (some jC)) dbU =
      .respond (errResp 400 contractorBufferValidationMsg) dbU ∧
    contractorBufferValidationMsg ≠ invalidJsonMsg ∧
    handleContractorRequest envA qOk (RawBody.buf (some jC)) dbU ≠
      handleContractorRequest envA qOk (RawBody.obj jC) dbU := by decide

/-- C8 (amended): the intake and check-user-exists routes JSON-decode a
buffer or string body before validation and answer 400 "Invalid JSON in
request body" when decoding fails, behaving on a decodable buffer/string
exactly as on the decoded object; the contractor-request route instead
passes the raw body to schema validation, so any buffer or string body
is rejected with a validation-style 400 (never a 500). -/
theorem C8_body_decoding (env : Env) (net : RedditNet) (q : DbOracle)
    (db : Db)
    (hurl : truthy (activeDbUrl env) = true) :
    (handleSocialQualifyForm env net q (RawBody.buf none) db =
        .respond (errResp 400 invalidJsonMsg) db ∧
      handleSocialQualifyForm env net q (RawBody.strBody none) db =
        .respond (errResp 400 invalidJsonMsg) db ∧
      handleCheckUserExists env q (RawBody.buf none) db =
        .respond (errResp 400 invalidJsonMsg) db ∧
      handleCheckUserExists env q (RawBody.strBody none) db =
        .respond (errResp 400 invalidJsonMsg) db) ∧
    (∀ j : JsonObj,
      handleSocialQualifyForm env net q (RawBody.buf (some j)) db =
        handleSocialQualifyForm env net q (RawBody.obj j) db ∧
      handleSocialQualifyForm env net q (RawBody.strBody (some j)) db =
        handleSocialQualifyForm env net q (RawBody.obj j) db ∧
      handleCheckUserExists env q (RawBody.buf (some j)) db =
        handleCheckUserExists env q (RawBody.obj j) db ∧
      handleCheckUserExists env q (RawBody.strBody (some j)) db =
        handleCheckUserExists env q (RawBody.obj j) db) ∧
    (∀ p : Option JsonObj,
      handleContractorRequest env q (RawBody.buf p) db =
        .respond (errResp 400 contractorBufferValidationMsg) db ∧
      handleContractorRequest env q (RawBody.strBody p) db =
        .respond (errResp 400 contractorStringValidationMsg) db) := by
  refine ⟨⟨?_, ?_, ?_, ?_⟩, fun j => ⟨rfl, rfl, rfl, rfl⟩, fun p => ⟨?_, ?_⟩⟩ <;>
    simp [handleSocialQualifyForm, handleCheckUserExists,
      handleContractorRequest, validateContractor, hurl, decodeBody]

/-- C8 witness: a concrete undecodable buffer at the intake route. -/
theorem C8_body_decoding_witness :
    handleSocialQualifyForm envA netOk qOk (RawBody.buf none) db0 =
      .respond (errResp 400 invalidJsonMsg) db0 :=
  (C8_body_decoding envA netOk qOk db0 (by decide)).1.1

/-- C9 counterexample: when the database-URL environment variable is
unset, `getDatabase()` throws BEFORE the handler enters its try block,
so the error reaches the server-level middleware and the 500 carries
"Server error: ..." — not the claimed "Internal server error: ..." form. -/
theorem C9_storage_error_counterexample :
    handleSocialQualifyForm envNoDb netOk qOk (RawBody.obj jA) db0 =
      .escaped "DATABASE_URL environment variable is not set" db0 ∧
    finalResponse
        (handleSocialQualifyForm envNoDb netOk qOk (RawBody.obj jA) db0) =
      (errResp 500
        "Server error: DATABASE_URL environment variable is not set", db0) ∧
    serverErrorMsg "DATABASE_URL environment variable is not set" ≠
      internalMsg "DATABASE_URL environment variable is not set" := by decide

/-- C9 (amended): every query-level persistence failure inside any of
the three handlers (duplicate-check SELECT, user lookup, contractor
duplicate SELECT, either INSERT) is answered 500 with the exact message
"Internal server error: <original message>" and changes nothing; a
falsy database-URL environment variable instead escapes the handler
(thrown before its try block) and is answered by the global middleware
with 500 "Server error: <env var> environment variable is not set".
Both kinds are 500s, never a 400-class business rejection. -/
theorem C9_storage_errors (env : Env) (net : RedditNet)
    (body bodyc : RawBody) (j : JsonObj) (d : QualifyData)
    (dc : ContractorData) (db : Db) (u : UserRow)
    (m1 m2 m3 m4 m5 m6 : String)
    (hurl : truthy (activeDbUrl env) = true)
    (hdec : decodeBody body = some j)
    (hval : validateQualify j = .ok d)
    (hdup : existsUser d.email d.phone db = false)
    (hver : verifyRedditAccount env.redditClientId env.redditClientSecret
      net d.redditUsername = .ok true)
    (hte : truthy j.email = true) (htp : truthy j.phone = true)
    (hvalc : validateContractor bodyc = .ok dc)
    (hu : findUserByEmail dc.email db = some u)
    (hnodup : existsContractor u.id dc.companySlug db = false) :
    handleSocialQualifyForm env net (⟨some m1, none, none⟩ : DbOracle)
        body db = .respond (errResp 500 (internalMsg m1)) db ∧
    handleSocialQualifyForm env net (⟨none, none, some m2⟩ : DbOracle)
        body db = .respond (errResp 500 (internalMsg m2)) db ∧
    handleCheckUserExists env (⟨some m3, none, none⟩ : DbOracle) body db =
      .respond (errResp 500 (internalMsg m3)) db ∧
    handleContractorRequest env (⟨some m4, none, none⟩ : DbOracle) bodyc db =
      .respond (errResp 500 (internalMsg m4)) db ∧
    handleContractorRequest env (⟨none, some m5, none⟩ : DbOracle) bodyc db =
      .respond (errResp 500 (internalMsg m5)) db ∧
    handleContractorRequest env (⟨none, none, some m6⟩ : DbOracle) bodyc db =
      .respond (errResp 500 (internalMsg m6)) db ∧
    (∀ env2 : Env, truthy (activeDbUrl env2) = false →
      finalResponse (handleSocialQualifyForm env2 net qOk body db) =
        (errResp 500 (serverErrorMsg (dbUrlUnsetMsg env2)), db) ∧
      finalResponse (handleCheckUserExists env2 qOk body db) =
        (errResp 500 (serverErrorMsg (dbUrlUnsetMsg env2)), db) ∧
      finalResponse (handleContractorRequest env2 qOk bodyc db) =
        (errResp 500 (serverErrorMsg (dbUrlUnsetMsg env2)), db)) := by
  obtain ⟨e, he⟩ : ∃ e, j.email = some e := by
    cases hje : j.email with
    | none => rw [hje] at hte; simp [truthy] at hte
    | some x => exact ⟨x, rfl⟩
  obtain ⟨p, hp⟩ : ∃ p, j.phone = some p := by
    cases hjp : j.phone with
    | none => rw [hjp] at htp; simp [truthy] at htp
    | some x => exact ⟨x, rfl⟩
  have hte2 : truthy (some e) = true := by rw [← he]; exact hte
  have htp2 : truthy (some p) = true := by rw [← hp]; exact htp
  refine ⟨?_, ?_, ?_, ?_, ?_, ?_, ?_⟩
  · simp [handleSocialQualifyForm, hurl, hdec, hval]
  · simp [handleSocialQualifyForm, hurl, hdec, hval, hdup, hver]
  · simp [handleCheckUserExists, hurl, hdec, he, hp, hte2, htp2]
  · simp [handleContractorRequest, hurl, hvalc]
  · simp [handleContractorRequest, hurl, hvalc, hu]
  · simp [handleContractorRequest, hurl, hvalc, hu, hnodup]
  · intro env2 hurl2
    have h2 : truthy (activeDbUrl env2) ≠ true := by simp [hurl2]
    refine ⟨?_, ?_, ?_⟩ <;>
      simp [handleSocialQualifyForm, handleCheckUserExists,
        handleContractorRequest, finalResponse, hurl2]

/-- C9 witness: a concrete connection-refused failure of the intake
duplicate-check SELECT. -/
theorem C9_storage_errors_witness :
    handleSocialQualifyForm envA netOk
        (⟨some "connection refused", none, none⟩ : DbOracle)
        (RawBody.obj jB) dbU =
      .respond (errResp 500 (internalMsg "connection refused")) dbU :=
  (C9_storage_errors envA netOk (RawBody.obj jB) (RawBody.obj jC) jB dB dC
    dbU userA "connection refused" "e2" "e3" "e4" "e5" "e6" (by decide) rfl
    (by decide) (by decide) (by decide) (by decide) (by decide) (by decide)
    (by decide) (by decide)).1

/-- C10: the contractor duplicate check matches on (user_id,
company_slug) only — any stored contractors row for that pair causes the
fixed duplicate rejection whatever its status column holds (pending,
accepted or rejected), so an applicant whose earlier request was
rejected can never file another request for the same company. -/
theorem C10_duplicate_ignores_status (env : Env) (q : DbOracle)
    (body : RawBody) (d : ContractorData) (db : Db) (u : UserRow)
    (r : ContractorRow)
    (hurl : truthy (activeDbUrl env) = true)
    (hval : validateContractor body = .ok d)
    (hq1 : q.q1Fail = none) (hq2 : q.q2Fail = none)
    (hu : findUserByEmail d.email db = some u)
    (hr : r ∈ db.contractors) (hrid : r.userId = u.id)
    (hrs : r.companySlug = d.companySlug) :
    handleContractorRequest env q body db =
      .respond (errResp 400 contractorDupMsg) db := by
  have hdup : existsContractor u.id d.companySlug db = true :=
    existsContractor_of_mem u.id d.companySlug db r hr hrid hrs
  simp [handleContractorRequest, hurl, hval, hq1, hu, hq2, hdup]

/-- C10 witness: the stored row has status REJECTED, and the new request
for the same company is still rejected as a duplicate. -/
theorem C10_duplicate_ignores_status_witness :
    rowRejected.status = ContractorStatus.rejected ∧
    handleContractorRequest envA qOk (RawBody.obj jC) dbUR =
      .respond (errResp 400 contractorDupMsg) dbUR :=
  ⟨rfl, C10_duplicate_ignores_status envA qOk (RawBody.obj jC) dC dbUR
    userA rowRejected (by decide) (by decide) rfl rfl (by decide)
    (by decide) rfl rfl⟩
